import Mathlib

/-!
Shallow embedding of the Sultan-Platform client profile logic
(src/App.tsx and src/AuthGate.tsx): the persisted profile record, the
uid-keyed remote profile store, the bootstrap (create-if-absent) handlers
of the auth gate, and the mutation operations of the app shell (XP with
level-up rule, points, ghost-mode toggle, logout), together with the
onSnapshot subscription mechanics of the root component.
-/

/-- The persisted user record: the User shape constructed in AuthGate.tsx
and mirrored in App.tsx. Numeric JS fields are modelled as Int, the
joinedAt timestamp as Nat. -/
structure Profile where
  uid : String
  name : String
  email : String
  points : Int
  xp : Int
  level : Int
  role : String
  isGhostMode : Bool
  twoFactorEnabled : Bool
  joinedAt : Nat
deriving DecidableEq

/-- The users collection of the remote store: uid-keyed documents. -/
abbrev Store := String → Option Profile

/-- getDoc on doc(db, "users", uid). -/
def storeGet (s : Store) (uid : String) : Option Profile :=
  s uid

/-- setDoc on doc(db, "users", uid): full overwrite. -/
def storeSet (s : Store) (uid : String) (p : Profile) : Store :=
  fun k => if k == uid then some p else s k

/-- updateDoc on doc(db, "users", uid): merge-write of the fields set by f.
The operations below only invoke it on documents that exist. -/
def storeUpdate (s : Store) (uid : String) (f : Profile → Profile) : Store :=
  fun k => if k == uid then (s k).map f else s k

/-- A toast notification as issued by showToast in App.tsx; when the color
argument is omitted at a call site the default gold color applies. -/
structure Toast where
  message : String
  color : String
deriving DecidableEq

/-- App.tsx component state relevant to the profile protocol: the remote
store, the local mirror (the user state, null when signed out), the uids
that have an active onSnapshot listener, and the log of toasts emitted so
far (the source displays one toast at a time; the list records emissions). -/
structure AppState where
  store : Store
  user : Option Profile
  listeners : List String
  toasts : List Toast

/-- The onAuthStateChanged handler body for a signed-in uid (App.tsx):
getDoc; when the profile document exists, set the local user and attach an
onSnapshot listener — the source discards the unsubscribe handle returned
by onSnapshot; otherwise clear the local user. -/
def onAuthSignedIn (st : AppState) (uid : String) : AppState :=
  match storeGet st.store uid with
  | some u => { st with user := some u, listeners := st.listeners ++ [uid] }
  | none => { st with user := none }

/-- The onSnapshot callback firing for uid (App.tsx): when a listener for
uid is active and the document exists, the local user is replaced wholesale
with the document data. -/
def deliverSnapshot (st : AppState) (uid : String) : AppState :=
  if st.listeners.contains uid then
    match storeGet st.store uid with
    | some u => { st with user := some u }
    | none => st
  else st

/-- A remote mutation of uid's document (a setDoc-style overwrite performed
by some other writer), followed by the snapshot delivery to any active
listener for that uid. -/
def remoteWrite (st : AppState) (uid : String) (p : Profile) : AppState :=
  deliverSnapshot { st with store := storeSet st.store uid p } uid

/-- Message of the level-up toast in addXP (App.tsx). -/
def levelUpMessage (newLevel : Int) : String :=
  "تبريكات إمبراطورية! ارتقيت للمستوى " ++ toString newLevel ++ " 🏆"

/-- The level-up toast of addXP, with the gold color passed at the call. -/
def levelUpToast (newLevel : Int) : Toast :=
  { message := levelUpMessage newLevel, color := "#ffd700" }

/-- addXP from App.tsx: no-op when the local user is null; otherwise
newXP = user.xp + amount, and when newXP reaches the threshold
user.level * 1000 the threshold is subtracted, the level is incremented by
exactly one (no loop) and a level-up toast is shown; finally updateDoc
writes the xp and level fields of the user's document. -/
def addXP (st : AppState) (amount : Int) : AppState :=
  match st.user with
  | none => st
  | some user =>
    let newXP := user.xp + amount
    let newLevel := user.level
    let xpToNextLevel := user.level * 1000
    if newXP ≥ xpToNextLevel then
      { st with
        store := storeUpdate st.store user.uid
          (fun p => { p with xp := newXP - xpToNextLevel, level := newLevel + 1 }),
        toasts := st.toasts ++ [levelUpToast (newLevel + 1)] }
    else
      { st with
        store := storeUpdate st.store user.uid
          (fun p => { p with xp := newXP, level := newLevel }) }

/-- updatePoints from App.tsx: no-op when the local user is null; otherwise
updateDoc writes the points field of the user's document. -/
def updatePoints (st : AppState) (amount : Int) : AppState :=
  match st.user with
  | none => st
  | some user =>
    { st with
      store := storeUpdate st.store user.uid
        (fun p => { p with points := user.points + amount }) }

/-- Message of the ghost-mode toast, chosen from the pre-toggle value of the
local user's flag (App.tsx). -/
def ghostMessage (preToggle : Bool) : String :=
  if preToggle then "تم إلغاء وضع الشبح" else "أنت الآن متخفٍ في الإمبراطورية 👻"

/-- The ghost-mode toast with the default gold color. -/
def ghostToast (preToggle : Bool) : Toast :=
  { message := ghostMessage preToggle, color := "#ffd700" }

/-- handleToggleGhost from App.tsx: no-op when the local user is null;
otherwise updateDoc writes isGhostMode := not of the local user's current
flag, and a toast computed from the pre-toggle flag is shown. -/
def handleToggleGhost (st : AppState) : AppState :=
  match st.user with
  | none => st
  | some user =>
    { st with
      store := storeUpdate st.store user.uid
        (fun p => { p with isGhostMode := !user.isGhostMode }),
      toasts := st.toasts ++ [ghostToast user.isGhostMode] }

/-- handleLogout from App.tsx: signOut (which makes onAuthStateChanged fire
with null and clear the user), setUser(null), and a farewell toast. The
onSnapshot unsubscribe handle was discarded at attach time and handleLogout
does not detach any listener, so the listeners set is unchanged. -/
def handleLogout (st : AppState) : AppState :=
  { st with
    user := none,
    toasts := st.toasts ++ [{ message := "تم الخروج من العرش بنجاح", color := "#ff4444" }] }

theorem storeGet_storeSet_self (s : Store) (uid : String) (p : Profile) :
    storeGet (storeSet s uid p) uid = some p := by
  simp [storeGet, storeSet]

theorem storeGet_storeUpdate_self (s : Store) (uid : String) (f : Profile → Profile) :
    storeGet (storeUpdate s uid f) uid = (storeGet s uid).map f := by
  simp [storeGet, storeUpdate]

/-- A concrete signed-in fixture profile stored at uid "u1". -/
def p1 : Profile :=
  { uid := "u1", name := "Sultan", email := "s@x.com", points := 1000, xp := 0,
    level := 1, role := "member", isGhostMode := false, twoFactorEnabled := false,
    joinedAt := 0 }

/-- A concrete app state: p1 stored at "u1", mirrored locally, with the
snapshot listener attached (as onAuthSignedIn leaves it). -/
def st1 : AppState :=
  { store := storeSet (fun _ => none) "u1" p1, user := some p1,
    listeners := ["u1"], toasts := [] }

/-- Claim C1: when the pending XP total reaches the current level's
threshold (level * 1000 ≤ xp + amount — which covers the window up to twice
the threshold and equally any larger total), addXP advances the stored
level by exactly one, sets the stored xp to xp + amount - level * 1000
using the pre-increment level's threshold, and emits a level-up
notification. -/
theorem addXP_levels_up (st : AppState) (amount : Int) (u p : Profile)
    (hu : st.user = some u) (hp : storeGet st.store u.uid = some p)
    (h : u.level * 1000 ≤ u.xp + amount) :
    ∃ q, storeGet (addXP st amount).store u.uid = some q ∧
      q.level = u.level + 1 ∧
      q.xp = u.xp + amount - u.level * 1000 ∧
      (addXP st amount).toasts = st.toasts ++ [levelUpToast (u.level + 1)] := by
  unfold addXP
  rw [hu]
  simp only [ge_iff_le, if_pos h]
  refine ⟨{ p with xp := u.xp + amount - u.level * 1000, level := u.level + 1 },
    ?_, ?_, ?_, ?_⟩
  · rw [storeGet_storeUpdate_self, hp]
    rfl
  · rfl
  · rfl
  · trivial

/-- Claim C1 witness: addXP 1200 on the fixture profile with xp 0 and
level 1 yields stored xp 200 and level 2 plus the level-up toast. -/
theorem addXP_levels_up_witness :
    ∃ q, storeGet (addXP st1 1200).store p1.uid = some q ∧
      q.level = p1.level + 1 ∧
      q.xp = p1.xp + 1200 - p1.level * 1000 ∧
      (addXP st1 1200).toasts = st1.toasts ++ [levelUpToast (p1.level + 1)] :=
  addXP_levels_up st1 1200 p1 p1 rfl (by decide) (by decide)

/-- Claim C3: when the pending XP total stays below the current level's
threshold, addXP leaves the stored level unchanged, sets the stored xp to
xp + amount, and emits no notification. -/
theorem addXP_below_threshold (st : AppState) (amount : Int) (u p : Profile)
    (hu : st.user = some u) (hp : storeGet st.store u.uid = some p)
    (h : u.xp + amount < u.level * 1000) :
    ∃ q, storeGet (addXP st amount).store u.uid = some q ∧
      q.level = u.level ∧
      q.xp = u.xp + amount ∧
      (addXP st amount).toasts = st.toasts := by
  unfold addXP
  rw [hu]
  simp only [ge_iff_le, if_neg (not_le.mpr h)]
  refine ⟨{ p with xp := u.xp + amount, level := u.level }, ?_, ?_, ?_, ?_⟩
  · rw [storeGet_storeUpdate_self, hp]
    rfl
  · rfl
  · rfl
  · trivial

/-- Claim C3 witness: addXP 300 on the fixture profile with xp 0 and
level 1 keeps level 1, stores xp 300 and emits nothing. -/
theorem addXP_below_threshold_witness :
    ∃ q, storeGet (addXP st1 300).store p1.uid = some q ∧
      q.level = p1.level ∧
      q.xp = p1.xp + 300 ∧
      (addXP st1 300).toasts = st1.toasts :=
  addXP_below_threshold st1 300 p1 p1 rfl (by decide) (by decide)

/-- JS `s || d` for a string s: the default fires exactly when s is empty. -/
def jsOrDefault (s : String) (d : String) : String :=
  if s == "" then d else s

/-- JS `s || d` for a nullable string field. -/
def jsOptOrDefault (s : Option String) (d : String) : String :=
  match s with
  | some v => jsOrDefault v d
  | none => d

/-- JS truthiness of a nullable string field: false for null and for "". -/
def jsTruthy (s : Option String) : Bool :=
  match s with
  | some v => v != ""
  | none => false

/-- The fields of the firebase user produced by signInWithPopup that
handleGoogleLogin reads (AuthGate.tsx). -/
structure GoogleUser where
  uid : String
  displayName : Option String
  email : Option String
deriving DecidableEq

/-- The profile handleGoogleLogin constructs for a first-time Google user:
defaults with name = displayName || fallback and email = email || "". -/
def googleProfile (fu : GoogleUser) (now : Nat) : Profile :=
  { uid := fu.uid,
    name := jsOptOrDefault fu.displayName "سلطان مجهول",
    email := jsOptOrDefault fu.email "",
    points := 1000, xp := 0, level := 1, role := "member",
    isGhostMode := false, twoFactorEnabled := false, joinedAt := now }

/-- handleGoogleLogin's store effect (AuthGate.tsx): getDoc on the uid's
document; when it exists nothing is written; when absent a fresh default
profile is written with setDoc. -/
def handleGoogleLogin (store : Store) (fu : GoogleUser) (now : Nat) : Store :=
  match storeGet store fu.uid with
  | some _ => store
  | none => storeSet store fu.uid (googleProfile fu now)

/-- The Telegram widget callback payload read by window.onTelegramAuth
(AuthGate.tsx). -/
structure TgUser where
  id : Int
  first_name : String
  last_name : Option String
  username : Option String
deriving DecidableEq

/-- The profile window.onTelegramAuth constructs for a first-time visitor:
name = first_name plus " " ++ last_name when that field is truthy, email =
"@" ++ username when truthy and the "tg_" ++ id placeholder otherwise,
and the §3 default gamification fields. -/
def telegramProfile (uid : String) (tg : TgUser) (now : Nat) : Profile :=
  { uid := uid,
    name := tg.first_name ++
      (if jsTruthy tg.last_name then " " ++ tg.last_name.getD "" else ""),
    email :=
      if jsTruthy tg.username then "@" ++ tg.username.getD ""
      else "tg_" ++ toString tg.id,
    points := 1000, xp := 0, level := 1, role := "member",
    isGhostMode := false, twoFactorEnabled := false, joinedAt := now }

/-- window.onTelegramAuth's store effect (AuthGate.tsx): signInAnonymously
yields the session uid; getDoc; when the document is absent a fresh profile
built from the Telegram payload is written with setDoc. -/
def onTelegramAuth (store : Store) (uid : String) (tg : TgUser) (now : Nat) : Store :=
  match storeGet store uid with
  | some _ => store
  | none => storeSet store uid (telegramProfile uid tg now)

/-- The profile the sign-up branch of handleSubmit constructs
(AuthGate.tsx): name = entered name || fallback, the entered email, and the
§3 default fields. -/
def signUpProfile (uid name email : String) (now : Nat) : Profile :=
  { uid := uid,
    name := jsOrDefault name "سلطان جديد",
    email := email,
    points := 1000, xp := 0, level := 1, role := "member",
    isGhostMode := false, twoFactorEnabled := false, joinedAt := now }

/-- handleSubmit's store effect in the sign-up branch (AuthGate.tsx):
createUserWithEmailAndPassword yields a fresh uid, then the new default
profile is written with setDoc (no exists check: the uid is freshly
minted by the auth provider). -/
def handleSubmitSignUp (store : Store) (uid name email : String) (now : Nat) : Store :=
  storeSet store uid (signUpProfile uid name email now)

/-- The error message the catch of handleSubmit shows for a failed
password sign-in or sign-up, keyed by the error code (AuthGate.tsx). -/
def submitErrorMessage (code : String) : String :=
  if code == "auth/user-not-found" then "المستخدم غير موجود"
  else "خطأ في البريد أو كلمة المرور"

/-- Claim C2: for a uid that already has a stored profile, the
Google-sign-in bootstrap leaves that profile unchanged whatever the
supplied attributes are, and running the bootstrap a second time (possibly
with other attributes for the same uid) still yields that same profile. -/
theorem handleGoogleLogin_idempotent (store : Store) (fu fu2 : GoogleUser)
    (now now2 : Nat) (p : Profile)
    (hp : storeGet store fu.uid = some p) (huid : fu2.uid = fu.uid) :
    storeGet (handleGoogleLogin store fu now) fu.uid = some p ∧
    storeGet (handleGoogleLogin (handleGoogleLogin store fu now) fu2 now2) fu.uid
      = some p := by
  unfold handleGoogleLogin
  rw [hp, huid, hp]
  exact ⟨rfl, hp⟩

/-- An existing-user Google payload whose attributes differ from p1's
stored fields. -/
def gu1 : GoogleUser :=
  { uid := "u1", displayName := some "Other Name", email := some "other@x.com" }

/-- A second payload for the same uid with yet other attributes. -/
def gu2 : GoogleUser :=
  { uid := "u1", displayName := none, email := none }

/-- Claim C2 witness: with p1 stored at "u1", two Google logins with
differing attribute payloads both leave p1 in place. -/
theorem handleGoogleLogin_idempotent_witness :
    storeGet (handleGoogleLogin st1.store gu1 7) gu1.uid = some p1 ∧
    storeGet (handleGoogleLogin (handleGoogleLogin st1.store gu1 7) gu2 8) gu1.uid
      = some p1 :=
  handleGoogleLogin_idempotent st1.store gu1 gu2 7 8 p1 (by decide) (by decide)

/-- Claim C6: a password sign-up with name "Amira" and email "a@x.com"
writes a profile with exactly those two attributes and the §3 defaults:
points 1000, xp 0, level 1, role member, ghost mode off, two-factor off. -/
theorem handleSubmitSignUp_amira (store : Store) (uid : String) (now : Nat) :
    storeGet (handleSubmitSignUp store uid "Amira" "a@x.com" now) uid =
      some { uid := uid, name := "Amira", email := "a@x.com", points := 1000,
             xp := 0, level := 1, role := "member", isGhostMode := false,
             twoFactorEnabled := false, joinedAt := now } := by
  unfold handleSubmitSignUp
  rw [storeGet_storeSet_self]
  have hn : jsOrDefault "Amira" "سلطان جديد" = "Amira" := by decide
  simp [signUpProfile, hn]

/-- The display-name rule as claim C7 states it: first_name, optionally
followed by a space and the last name when that field is present. -/
def claimTelegramName (tg : TgUser) : String :=
  match tg.last_name with
  | some l => tg.first_name ++ " " ++ l
  | none => tg.first_name

/-- The placeholder-email rule as claim C7 states it: "@" ++ username when
present, otherwise "tg_" ++ id. -/
def claimTelegramEmail (tg : TgUser) : String :=
  match tg.username with
  | some un => "@" ++ un
  | none => "tg_" ++ toString tg.id

/-- Claim C7: on first contact (no stored document for the session uid) the
Telegram bootstrap writes a profile whose name and email follow the
presence-based rules of the claim and whose gamification fields take the
defaults; present-but-empty strings are excluded because the source tests
the payload fields for JS truthiness. -/
theorem onTelegramAuth_first_contact (store : Store) (uid : String) (tg : TgUser)
    (now : Nat) (habsent : storeGet store uid = none)
    (hln : tg.last_name ≠ some "") (hun : tg.username ≠ some "") :
    ∃ q, storeGet (onTelegramAuth store uid tg now) uid = some q ∧
      q.name = claimTelegramName tg ∧ q.email = claimTelegramEmail tg ∧
      q.points = 1000 ∧ q.xp = 0 ∧ q.level = 1 := by
  unfold onTelegramAuth
  rw [habsent, storeGet_storeSet_self]
  refine ⟨telegramProfile uid tg now, rfl, ?_, ?_, rfl, rfl, rfl⟩
  · show tg.first_name ++
      (if jsTruthy tg.last_name then " " ++ tg.last_name.getD "" else "")
        = claimTelegramName tg
    cases hl : tg.last_name with
    | none => simp [jsTruthy, claimTelegramName, hl]
    | some l =>
      have hne : l ≠ "" := fun he => hln (by rw [hl, he])
      simp [jsTruthy, claimTelegramName, hl, hne, String.append_assoc]
  · show (if jsTruthy tg.username then "@" ++ tg.username.getD ""
      else "tg_" ++ toString tg.id) = claimTelegramEmail tg
    cases hu : tg.username with
    | none => simp [jsTruthy, claimTelegramEmail, hu]
    | some un =>
      have hne : un ≠ "" := fun he => hun (by rw [hu, he])
      simp [jsTruthy, claimTelegramEmail, hu, hne]

/-- The Telegram payload of the C7 scenario. -/
def tg55 : TgUser :=
  { id := 55, first_name := "Omar", last_name := none, username := some "omarx" }

/-- Claim C7 witness: the payload {id 55, first_name "Omar", username
"omarx"} on a fresh store yields a profile named "Omar" with email
"@omarx", points 1000, xp 0, level 1. -/
theorem onTelegramAuth_first_contact_witness :
    ∃ q, storeGet (onTelegramAuth (fun _ => none) "anon55" tg55 5) "anon55" = some q ∧
      q.name = "Omar" ∧ q.email = "@omarx" ∧
      q.points = 1000 ∧ q.xp = 0 ∧ q.level = 1 :=
  onTelegramAuth_first_contact (fun _ => none) "anon55" tg55 5 rfl
    (by decide) (by decide)

/-- Claim C8: every password sign-in or sign-up failure surfaces the single
generic credentials message, except the user-not-found code, which gets its
own distinct special-cased message. -/
theorem submitErrorMessage_single_generic (code : String)
    (h : code ≠ "auth/user-not-found") :
    submitErrorMessage code = "خطأ في البريد أو كلمة المرور" ∧
    submitErrorMessage "auth/user-not-found" = "المستخدم غير موجود" ∧
    submitErrorMessage "auth/user-not-found" ≠ submitErrorMessage code := by
  have hg : submitErrorMessage code = "خطأ في البريد أو كلمة المرور" := by
    simp [submitErrorMessage, h]
  refine ⟨hg, by decide, ?_⟩
  rw [hg]
  decide

/-- Claim C8 witness: the wrong-password code gets the generic message,
distinct from the special user-not-found message. -/
theorem submitErrorMessage_single_generic_witness :
    submitErrorMessage "auth/wrong-password" = "خطأ في البريد أو كلمة المرور" ∧
    submitErrorMessage "auth/user-not-found" = "المستخدم غير موجود" ∧
    submitErrorMessage "auth/user-not-found" ≠ submitErrorMessage "auth/wrong-password" :=
  submitErrorMessage_single_generic "auth/wrong-password" (by decide)

/-- A remotely mutated version of p1 (a points change made by some other
writer). -/
def p2 : Profile :=
  { p1 with points := 2000 }

/-- Claim C4 check, run on the concrete signed-in state st1: handleLogout
clears the local mirror, but the onSnapshot listener attached at sign-in is
never unsubscribed (App.tsx discards the handle onSnapshot returns, and the
effect cleanup only unsubscribes onAuthStateChanged), so a remote write
made after logout is still delivered and sets the local mirror to the new
document — contradicting the claim that no post-sign-out remote mutation
produces a local state update. -/
theorem post_logout_remote_write_still_observed :
    (handleLogout st1).user = none ∧
    (handleLogout st1).listeners = ["u1"] ∧
    (remoteWrite (handleLogout st1) "u1" p2).user = some p2 := by
  refine ⟨rfl, rfl, ?_⟩
  decide


/-- Reduction of handleToggleGhost on a signed-in state. -/
theorem handleToggleGhost_some (st : AppState) (u : Profile)
    (hu : st.user = some u) :
    handleToggleGhost st =
      { st with
        store := storeUpdate st.store u.uid
          (fun q => { q with isGhostMode := !u.isGhostMode }),
        toasts := st.toasts ++ [ghostToast u.isGhostMode] } := by
  unfold handleToggleGhost
  rw [hu]

/-- Claim C5: from a synced signed-in state, toggling ghost mode writes the
negation of the current flag; after the subscription reflects that write
into the mirror, toggling again returns the stored flag to its original
value, and the two emitted toasts (each computed from the pre-toggle value)
carry different messages. -/
theorem toggleGhost_self_inverse (st : AppState) (u p : Profile)
    (hu : st.user = some u) (hp : storeGet st.store u.uid = some p)
    (hl : st.listeners.contains u.uid = true) (hpuid : p.uid = u.uid)
    (hsync : p.isGhostMode = u.isGhostMode) :
    ∃ q, storeGet (handleToggleGhost (deliverSnapshot (handleToggleGhost st) u.uid)).store
        u.uid = some q ∧
      q.isGhostMode = p.isGhostMode ∧
      (handleToggleGhost (deliverSnapshot (handleToggleGhost st) u.uid)).toasts
        = st.toasts ++ [ghostToast u.isGhostMode, ghostToast (!u.isGhostMode)] ∧
      ghostMessage u.isGhostMode ≠ ghostMessage (!u.isGhostMode) := by
  have hmsg : ∀ b : Bool, ghostMessage b ≠ ghostMessage (!b) := by decide
  have hm : u.uid ∈ st.listeners := by simpa using hl
  have hp2 : st.store u.uid = some p := hp
  have hst3 : deliverSnapshot (handleToggleGhost st) u.uid =
      { st with
        store := storeUpdate st.store u.uid
          (fun q => { q with isGhostMode := !u.isGhostMode }),
        toasts := st.toasts ++ [ghostToast u.isGhostMode],
        user := some { p with isGhostMode := !u.isGhostMode } } := by
    rw [handleToggleGhost_some st u hu]
    unfold deliverSnapshot
    simp [hm, storeGet, storeUpdate, hp2]
  rw [hst3, handleToggleGhost_some _ { p with isGhostMode := !u.isGhostMode } rfl]
  refine ⟨{ p with isGhostMode := !(!u.isGhostMode) }, ?_, ?_, ?_, hmsg u.isGhostMode⟩
  · show storeGet
      (storeUpdate
        (storeUpdate st.store u.uid (fun q => { q with isGhostMode := !u.isGhostMode }))
        p.uid (fun q => { q with isGhostMode := !(!u.isGhostMode) }))
      u.uid = _
    have hkey : ∀ (s : Store) (f : Profile → Profile),
        storeUpdate s p.uid f = storeUpdate s u.uid f := by
      rw [hpuid]
      exact fun s f => rfl
    rw [hkey, storeGet_storeUpdate_self, storeGet_storeUpdate_self, hp]
    rfl
  · simp [hsync]
  · show (st.toasts ++ [ghostToast u.isGhostMode]) ++ [ghostToast (!u.isGhostMode)]
      = st.toasts ++ [ghostToast u.isGhostMode, ghostToast (!u.isGhostMode)]
    simp

/-- Claim C5 witness: on the fixture state st1 (ghost mode off, synced),
toggle, snapshot delivery, toggle returns the stored flag to off, with two
differently-worded toasts. -/
theorem toggleGhost_self_inverse_witness :
    ∃ q, storeGet (handleToggleGhost (deliverSnapshot (handleToggleGhost st1) p1.uid)).store
        p1.uid = some q ∧
      q.isGhostMode = p1.isGhostMode ∧
      (handleToggleGhost (deliverSnapshot (handleToggleGhost st1) p1.uid)).toasts
        = st1.toasts ++ [ghostToast p1.isGhostMode, ghostToast (!p1.isGhostMode)] ∧
      ghostMessage p1.isGhostMode ≠ ghostMessage (!p1.isGhostMode) :=
  toggleGhost_self_inverse st1 p1 p1 rfl (by decide) (by decide) rfl rfl

/-- Reduction of addXP on a signed-in state. -/
theorem addXP_some (st : AppState) (amount : Int) (u : Profile)
    (hu : st.user = some u) :
    addXP st amount =
      if u.xp + amount ≥ u.level * 1000 then
        { st with
          store := storeUpdate st.store u.uid
            (fun p => { p with xp := u.xp + amount - u.level * 1000, level := u.level + 1 }),
          toasts := st.toasts ++ [levelUpToast (u.level + 1)] }
      else
        { st with
          store := storeUpdate st.store u.uid
            (fun p => { p with xp := u.xp + amount, level := u.level }) } := by
  unfold addXP
  rw [hu]

/-- Reduction of updatePoints on a signed-in state. -/
theorem updatePoints_some (st : AppState) (amount : Int) (u : Profile)
    (hu : st.user = some u) :
    updatePoints st amount =
      { st with
        store := storeUpdate st.store u.uid
          (fun p => { p with points := u.points + amount }) } := by
  unfold updatePoints
  rw [hu]

/-- Claim C9: addXP merge-writes exactly the xp and level fields of the
stored document and updatePoints merge-writes exactly the points field;
every other stored field keeps its value, and neither operation touches
the local mirror state directly. -/
theorem mutations_frame (st : AppState) (amount : Int) (u p : Profile)
    (hu : st.user = some u) (hp : storeGet st.store u.uid = some p) :
    (∃ q, storeGet (addXP st amount).store u.uid = some q ∧
        q.uid = p.uid ∧ q.name = p.name ∧ q.email = p.email ∧ q.points = p.points ∧
        q.role = p.role ∧ q.isGhostMode = p.isGhostMode ∧
        q.twoFactorEnabled = p.twoFactorEnabled ∧ q.joinedAt = p.joinedAt) ∧
    (addXP st amount).user = st.user ∧
    (∃ q, storeGet (updatePoints st amount).store u.uid = some q ∧
        q.points = u.points + amount ∧
        q.uid = p.uid ∧ q.name = p.name ∧ q.email = p.email ∧
        q.xp = p.xp ∧ q.level = p.level ∧ q.role = p.role ∧
        q.isGhostMode = p.isGhostMode ∧ q.twoFactorEnabled = p.twoFactorEnabled ∧
        q.joinedAt = p.joinedAt) ∧
    (updatePoints st amount).user = st.user := by
  refine ⟨?_, ?_, ?_, ?_⟩
  · rw [addXP_some st amount u hu]
    split
    · refine ⟨{ p with xp := u.xp + amount - u.level * 1000, level := u.level + 1 },
        ?_, rfl, rfl, rfl, rfl, rfl, rfl, rfl, rfl⟩
      rw [storeGet_storeUpdate_self, hp]
      rfl
    · refine ⟨{ p with xp := u.xp + amount, level := u.level },
        ?_, rfl, rfl, rfl, rfl, rfl, rfl, rfl, rfl⟩
      rw [storeGet_storeUpdate_self, hp]
      rfl
  · rw [addXP_some st amount u hu, hu]
    split
    · rfl
    · rfl
  · rw [updatePoints_some st amount u hu]
    refine ⟨{ p with points := u.points + amount },
      ?_, rfl, rfl, rfl, rfl, rfl, rfl, rfl, rfl, rfl, rfl⟩
    rw [storeGet_storeUpdate_self, hp]
    rfl
  · rw [updatePoints_some st amount u hu, hu]

/-- Claim C9 witness: the frame property instantiated on the fixture state
st1 with amount 250. -/
theorem mutations_frame_witness :
    (∃ q, storeGet (addXP st1 250).store p1.uid = some q ∧
        q.uid = p1.uid ∧ q.name = p1.name ∧ q.email = p1.email ∧ q.points = p1.points ∧
        q.role = p1.role ∧ q.isGhostMode = p1.isGhostMode ∧
        q.twoFactorEnabled = p1.twoFactorEnabled ∧ q.joinedAt = p1.joinedAt) ∧
    (addXP st1 250).user = st1.user ∧
    (∃ q, storeGet (updatePoints st1 250).store p1.uid = some q ∧
        q.points = p1.points + 250 ∧
        q.uid = p1.uid ∧ q.name = p1.name ∧ q.email = p1.email ∧
        q.xp = p1.xp ∧ q.level = p1.level ∧ q.role = p1.role ∧
        q.isGhostMode = p1.isGhostMode ∧ q.twoFactorEnabled = p1.twoFactorEnabled ∧
        q.joinedAt = p1.joinedAt) ∧
    (updatePoints st1 250).user = st1.user :=
  mutations_frame st1 250 p1 p1 rfl (by decide)

/-- Claim C10: with a null local mirror (no authenticated profile), addXP,
updatePoints and handleToggleGhost are complete no-ops: no store write, no
toast, local state unchanged. -/
theorem mutations_noop_when_signed_out (st : AppState) (amount : Int)
    (h : st.user = none) :
    addXP st amount = st ∧ updatePoints st amount = st ∧ handleToggleGhost st = st := by
  unfold addXP updatePoints handleToggleGhost
  rw [h]
  exact ⟨rfl, rfl, rfl⟩

/-- A concrete signed-out state: empty store, null mirror. -/
def st0 : AppState :=
  { store := fun _ => none, user := none, listeners := [], toasts := [] }

/-- Claim C10 witness: on the signed-out fixture state, all three mutation
operations leave the state untouched. -/
theorem mutations_noop_when_signed_out_witness :
    addXP st0 5 = st0 ∧ updatePoints st0 5 = st0 ∧ handleToggleGhost st0 = st0 :=
  mutations_noop_when_signed_out st0 5 rfl
